import Mathlib

/-!
Verification of the Taskdown backend task repository
(`src/backend/src/database.rs`, `src/backend/src/handlers.rs`,
`src/backend/src/models.rs`) against its natural-language specification.

The Rust code is shallowly embedded: the SQLite database is a record of
row lists, each `pub async fn` of `database.rs` becomes a pure Lean
function on that record, and the SQL statements it issues are translated
to the corresponding list operations.  `Option` results model the
partiality of the Rust code: `none` stands for a panic (an `unwrap` that
fails), since that is the only failure the embedded logic itself can
produce.  Nondeterministic inputs of the Rust code (`Utc::now()`,
`uuid::Uuid::new_v4()`) become explicit parameters.
-/

namespace Taskdown

/-- `TaskType` from `models.rs`. -/
inductive TaskType where
  | Epic | Story | Task | Bug
deriving DecidableEq, Repr

/-- `Priority` from `models.rs`. -/
inductive Priority where
  | Critical | High | Medium | Low
deriving DecidableEq, Repr

/-- `TaskStatus` from `models.rs`. -/
inductive TaskStatus where
  | Todo | InProgress | InReview | Done
deriving DecidableEq, Repr

/-- Rust `format!("{:?}", task_type)` — the Debug string used when a task
type is written to the `tasks.task_type` column (`create_task`). -/
def taskTypeToString : TaskType → String
  | .Epic => "Epic"
  | .Story => "Story"
  | .Task => "Task"
  | .Bug => "Bug"

/-- Rust `format!("{:?}", priority)` used when writing `tasks.priority`. -/
def priorityToString : Priority → String
  | .Critical => "Critical"
  | .High => "High"
  | .Medium => "Medium"
  | .Low => "Low"

/-- Rust `format!("{:?}", status)` used when writing `tasks.status`. -/
def taskStatusToString : TaskStatus → String
  | .Todo => "Todo"
  | .InProgress => "InProgress"
  | .InReview => "InReview"
  | .Done => "Done"

/-- The `task_type` match of `impl From<TaskRow> for Task`
(`database.rs` lines 11–16): unrecognized strings fall through to
`TaskType::Task`. -/
def taskTypeFromString (s : String) : TaskType :=
  if s = "Epic" then .Epic
  else if s = "Story" then .Story
  else if s = "Bug" then .Bug
  else .Task

/-- The `priority` match of `impl From<TaskRow> for Task`
(`database.rs` lines 18–23): unrecognized strings fall through to
`Priority::Medium`. -/
def priorityFromString (s : String) : Priority :=
  if s = "Critical" then .Critical
  else if s = "High" then .High
  else if s = "Low" then .Low
  else .Medium

/-- The `status` match of `impl From<TaskRow> for Task`
(`database.rs` lines 25–30): unrecognized strings fall through to
`TaskStatus::Done`. -/
def taskStatusFromString (s : String) : TaskStatus :=
  if s = "Todo" then .Todo
  else if s = "InProgress" then .InProgress
  else if s = "InReview" then .InReview
  else .Done

/-- A UTC wall-clock instant, the embedding of `chrono::DateTime<Utc>`.
Only the calendar fields that appear in the RFC 3339 text written to the
`created_at` / `updated_at` columns are modelled. -/
structure DateTimeUtc where
  year : Nat
  month : Nat
  day : Nat
  hour : Nat
  minute : Nat
  second : Nat
deriving DecidableEq, Repr

/-- Field bounds under which the fixed-width RFC 3339 rendering
round-trips; every instant produced by `Utc::now()` satisfies them. -/
def DateTimeUtc.Valid (d : DateTimeUtc) : Prop :=
  d.year < 10000 ∧ d.month < 100 ∧ d.day < 100 ∧
    d.hour < 100 ∧ d.minute < 100 ∧ d.second < 100

instance (d : DateTimeUtc) : Decidable d.Valid := by
  unfold DateTimeUtc.Valid; infer_instance

/-- The ASCII character for the digit `n` (callers pass `n < 10`). -/
def digitChar (n : Nat) : Char := Char.ofNat (48 + n)

/-- Inverse of `digitChar` on digits; `none` on any other character. -/
def digitVal (c : Char) : Option Nat :=
  if 48 ≤ c.toNat ∧ c.toNat ≤ 57 then some (c.toNat - 48) else none

/-- Two-digit zero-padded rendering (`%02d`). -/
def pad2 (n : Nat) : List Char := [digitChar (n / 10 % 10), digitChar (n % 10)]

/-- Four-digit zero-padded rendering (`%04d`). -/
def pad4 (n : Nat) : List Char :=
  [digitChar (n / 1000 % 10), digitChar (n / 100 % 10),
    digitChar (n / 10 % 10), digitChar (n % 10)]

/-- Character list of `DateTime::<Utc>::to_rfc3339`: the chrono output
`YYYY-MM-DDTHH:MM:SS+00:00` for a UTC instant. -/
def rfc3339Chars (d : DateTimeUtc) : List Char :=
  pad4 d.year ++ '-' :: (pad2 d.month ++ '-' :: (pad2 d.day ++
    'T' :: (pad2 d.hour ++ ':' :: (pad2 d.minute ++
      ':' :: (pad2 d.second ++ ['+', '0', '0', ':', '0', '0'])))))

/-- Embedding of `DateTime::<Utc>::to_rfc3339` — the string stored in the
`created_at` / `updated_at` columns. -/
def toRfc3339 (d : DateTimeUtc) : String := String.mk (rfc3339Chars d)

/-- Read two decimal digits as a number. -/
def read2 : List Char → Option (Nat × List Char)
  | c1 :: c2 :: r =>
    match digitVal c1, digitVal c2 with
    | some a, some b => some (10 * a + b, r)
    | _, _ => none
  | _ => none

/-- Read four decimal digits as a number. -/
def read4 : List Char → Option (Nat × List Char)
  | c1 :: c2 :: c3 :: c4 :: r =>
    match digitVal c1, digitVal c2, digitVal c3, digitVal c4 with
    | some a, some b, some c, some d => some (1000 * a + 100 * b + 10 * c + d, r)
    | _, _, _, _ => none
  | _ => none

/-- Require the next character to be `c`. -/
def expectChar (c : Char) : List Char → Option (List Char)
  | [] => none
  | x :: s => if x = c then some s else none

/-- Expect the literal character suffix `suffix` and then end of input. -/
def expectEnd : List Char → List Char → Bool
  | [], [] => true
  | c :: cs, x :: s => x = c && expectEnd cs s
  | _, _ => false

/-- Character-level body of `parseRfc3339`: four date/time number fields
separated by the literal RFC 3339 punctuation, ending in `+00:00`. -/
def parseRfc3339Chars (cs : List Char) : Option DateTimeUtc :=
  match read4 cs with
  | none => none
  | some (y, s) =>
  match expectChar '-' s with
  | none => none
  | some s =>
  match read2 s with
  | none => none
  | some (mo, s) =>
  match expectChar '-' s with
  | none => none
  | some s =>
  match read2 s with
  | none => none
  | some (da, s) =>
  match expectChar 'T' s with
  | none => none
  | some s =>
  match read2 s with
  | none => none
  | some (h, s) =>
  match expectChar ':' s with
  | none => none
  | some s =>
  match read2 s with
  | none => none
  | some (mi, s) =>
  match expectChar ':' s with
  | none => none
  | some s =>
  match read2 s with
  | none => none
  | some (se, s) =>
  if expectEnd ['+', '0', '0', ':', '0', '0'] s then
    some ⟨y, mo, da, h, mi, se⟩
  else none

/-- Embedding of `DateTime::parse_from_rfc3339` restricted to the exact
shape this program writes (UTC, `+00:00`, no fractional seconds): parses
`YYYY-MM-DDTHH:MM:SS+00:00` and fails (`none`) on anything else, as the
chrono parser fails on non-timestamp text. -/
def parseRfc3339 (str : String) : Option DateTimeUtc :=
  parseRfc3339Chars str.data

/-- `ChecklistItem` from `models.rs`: optional identifier, text, completed
flag. -/
structure ChecklistItem where
  id : Option String
  text : String
  completed : Bool
deriving DecidableEq, Repr

/-- `TaskRow` from `models.rs` — the raw representation of one row of the
`tasks` table, all enum columns still strings. -/
structure TaskRow where
  id : String
  title : String
  task_type : String
  priority : String
  status : String
  story_points : Option Int
  sprint : Option String
  epic : Option String
  description : String
  assignee : Option String
  is_favorite : Option Bool
  thumbnail : Option String
  created_at : String
  updated_at : String
deriving DecidableEq, Repr

/-- One row of the `checklist_items` table. -/
structure ChecklistRow where
  id : String
  task_id : String
  item_type : String
  text : String
  completed : Bool
  sort_order : Nat
deriving DecidableEq, Repr

/-- One row of the `task_dependencies` or `task_blocks` table:
`related_id` is the `depends_on_task_id` / `blocks_task_id` column. -/
structure EdgeRow where
  id : String
  task_id : String
  related_id : String
deriving DecidableEq, Repr

/-- The SQLite database state relevant to the task repository: the four
tables `tasks`, `checklist_items`, `task_dependencies` and `task_blocks`,
each as its list of rows in physical (insertion) order. -/
structure Db where
  tasks : List TaskRow
  checklist_items : List ChecklistRow
  task_dependencies : List EdgeRow
  task_blocks : List EdgeRow
deriving DecidableEq, Repr

/-- The in-memory `Task` aggregate from `models.rs`.  The Rust field
`r#type` is named `rtype` here (`type` is reserved in Lean). -/
structure Task where
  id : String
  title : String
  rtype : TaskType
  priority : Priority
  status : TaskStatus
  story_points : Option Int
  sprint : Option String
  epic : Option String
  description : String
  acceptance_criteria : List ChecklistItem
  technical_tasks : List ChecklistItem
  dependencies : List String
  blocks : List String
  assignee : Option String
  is_favorite : Option Bool
  thumbnail : Option String
  created_at : DateTimeUtc
  updated_at : DateTimeUtc
deriving DecidableEq, Repr

/-- `impl From<TaskRow> for Task` (`database.rs` lines 9–53).  The Rust
code calls `DateTime::parse_from_rfc3339(..).unwrap()` on both timestamp
columns: an unparseable stored timestamp makes the conversion panic,
which this embedding represents as `none`.  The child collections are
left empty, to be populated separately, exactly as in the source. -/
def rowToTask (row : TaskRow) : Option Task :=
  match parseRfc3339 row.created_at, parseRfc3339 row.updated_at with
  | some c, some u =>
    some {
      id := row.id
      title := row.title
      rtype := taskTypeFromString row.task_type
      priority := priorityFromString row.priority
      status := taskStatusFromString row.status
      story_points := row.story_points
      sprint := row.sprint
      epic := row.epic
      description := row.description
      acceptance_criteria := []
      technical_tasks := []
      dependencies := []
      blocks := []
      assignee := row.assignee
      is_favorite := row.is_favorite
      thumbnail := row.thumbnail
      created_at := c
      updated_at := u }
  | _, _ => none

/-- Insert into a list sorted by `le` (used to model SQL `ORDER BY`). -/
def insertLe (le : α → α → Bool) (a : α) : List α → List α
  | [] => [a]
  | b :: l => if le a b then a :: b :: l else b :: insertLe le a l

/-- Insertion sort by `le`, the model of SQL `ORDER BY`. -/
def sortByLe (le : α → α → Bool) : List α → List α
  | [] => []
  | a :: l => insertLe le a (sortByLe le l)

/-- Whether a `checklist_items` row matches `WHERE task_id = ? AND
item_type = ?`. -/
def checklistRowMatches (task_id item_type : String) (c : ChecklistRow) : Bool :=
  decide (c.task_id = task_id) && decide (c.item_type = item_type)

/-- `get_checklist_items` (`database.rs` lines 431–455) as a function of
the `checklist_items` table: `SELECT id, text, completed ... WHERE
task_id = ? AND item_type = ? ORDER BY sort_order`. -/
def checklistItemsOf (rows : List ChecklistRow) (task_id item_type : String) :
    List ChecklistItem :=
  (sortByLe (fun a b => decide (a.sort_order ≤ b.sort_order))
      (rows.filter (checklistRowMatches task_id item_type))).map
    (fun r => { id := some r.id, text := r.text, completed := r.completed })

/-- `get_checklist_items pool task_id item_type`. -/
def get_checklist_items (db : Db) (task_id item_type : String) :
    List ChecklistItem :=
  checklistItemsOf db.checklist_items task_id item_type

/-- The two relationship tables, standing for the `table_name` /
`column_name` string pairs the Rust helpers receive. -/
inductive RelTable where
  | deps
  | blocks
deriving DecidableEq, Repr

/-- The row list of a relationship table. -/
def relList (db : Db) : RelTable → List EdgeRow
  | .deps => db.task_dependencies
  | .blocks => db.task_blocks

/-- Replace the row list of a relationship table. -/
def setRelList (db : Db) : RelTable → List EdgeRow → Db
  | .deps, l => { db with task_dependencies := l }
  | .blocks, l => { db with task_blocks := l }

/-- `get_task_relationships` (`database.rs` lines 457–479):
`SELECT <column> FROM <table> WHERE task_id = ?`, rows in insertion
order. -/
def get_task_relationships (db : Db) (task_id : String) (tbl : RelTable) :
    List String :=
  ((relList db tbl).filter (fun e => decide (e.task_id = task_id))).map
    (fun e => e.related_id)

/-- The rows inserted by the loop of `save_checklist_items`
(`database.rs` lines 495–509): item `i` gets identifier
`item.id.clone().unwrap_or_else(|| Uuid::new_v4())` — modelled by the
supply `fresh` — and `sort_order = index`. -/
def emitRows (task_id item_type : String) (fresh : Nat → String) :
    Nat → List ChecklistItem → List ChecklistRow
  | _, [] => []
  | i, item :: rest =>
    { id := item.id.getD (fresh i), task_id := task_id, item_type := item_type,
      text := item.text, completed := item.completed, sort_order := i } ::
      emitRows task_id item_type fresh (i + 1) rest

/-- `save_checklist_items` (`database.rs` lines 481–512): `DELETE FROM
checklist_items WHERE task_id = ? AND item_type = ?`, then insert the
given items one by one with `sort_order = index`. -/
def save_checklist_items (db : Db) (task_id : String)
    (items : List ChecklistItem) (item_type : String) (fresh : Nat → String) :
    Db :=
  { db with checklist_items :=
      db.checklist_items.filter (fun c => !checklistRowMatches task_id item_type c)
        ++ emitRows task_id item_type fresh 0 items }

/-- The rows inserted by the loop of `save_task_relationships`
(`database.rs` lines 528–541): each related id gets a fresh edge row
identifier. -/
def emitEdges (task_id : String) (fresh : Nat → String) :
    Nat → List String → List EdgeRow
  | _, [] => []
  | i, rid :: rest =>
    { id := fresh i, task_id := task_id, related_id := rid } ::
      emitEdges task_id fresh (i + 1) rest

/-- `save_task_relationships` (`database.rs` lines 514–544): `DELETE FROM
<table> WHERE task_id = ?`, then insert one edge row per related id. -/
def save_task_relationships (db : Db) (task_id : String)
    (related_ids : List String) (tbl : RelTable) (fresh : Nat → String) : Db :=
  setRelList db tbl
    ((relList db tbl).filter (fun e => !decide (e.task_id = task_id))
      ++ emitEdges task_id fresh 0 related_ids)

/-- The enrichment step shared by `get_tasks` and `get_task_by_id`: load
the two checklists and the two relationship lists of a task. -/
def enrichTask (db : Db) (t : Task) : Task :=
  { t with
    acceptance_criteria := get_checklist_items db t.id "acceptance_criteria"
    technical_tasks := get_checklist_items db t.id "technical_tasks"
    dependencies := get_task_relationships db t.id .deps
    blocks := get_task_relationships db t.id .blocks }

/-- `get_task_by_id` (`database.rs` lines 303–328).  Outer `none` models
a panic while converting the row (`rowToTask`); `some none` is the
`Ok(None)` "no such row" result; `some (some t)` the enriched task.
`fetch_optional` on the primary key returns the first matching row. -/
def get_task_by_id (db : Db) (task_id : String) : Option (Option Task) :=
  match db.tasks.find? (fun r => decide (r.id = task_id)) with
  | none => some none
  | some row =>
    match rowToTask row with
    | none => none
    | some t => some (some (enrichTask db t))

/-- `TaskQueryParams` from `models.rs` (the `u32` fields as `Nat`). -/
structure TaskQueryParams where
  last_sync : Option String := none
  epic : Option String := none
  status : Option String := none
  assignee : Option String := none
  limit : Option Nat := none
  offset : Option Nat := none
  sort : Option String := none
  search : Option String := none
deriving DecidableEq, Repr

/-- Split a character list at every occurrence of `sep`, the semantics
of Rust's `str::split`: the empty input gives one empty group. -/
def splitOnChar (sep : Char) : List Char → List (List Char)
  | [] => [[]]
  | c :: cs =>
    match splitOnChar sep cs with
    | [] => [[]]
    | g :: gs => if c = sep then [] :: g :: gs else (c :: g) :: gs

/-- `params.sort.as_ref().and_then(|s| s.split(':').next())
.unwrap_or("updated_at")` (`database.rs` lines 260–262): the text before
the first `:` of the sort string, whatever it is (`split` always yields
a first group). -/
def sortColumnOf (sort : Option String) : String :=
  match sort with
  | none => "updated_at"
  | some s => String.mk ((splitOnChar ':' s.data).headD [])

/-- `params.sort.as_ref().and_then(|s| s.split(':').nth(1))
.unwrap_or("desc")` (`database.rs` lines 263–265). -/
def sortDirectionOf (sort : Option String) : String :=
  match sort with
  | none => "desc"
  | some s =>
    match (splitOnChar ':' s.data)[1]? with
    | some g => String.mk g
    | none => "desc"

/-- The fixed `SELECT ... FROM tasks WHERE 1=1` prefix of `get_tasks`
(whitespace condensed to single spaces). -/
def baseSelect : String :=
  "SELECT id, title, task_type, priority, status, story_points, sprint, epic, description, assignee, is_favorite, thumbnail, created_at, updated_at FROM tasks WHERE 1=1"

/-- The SQL-string construction of `get_tasks` (`database.rs` lines
223–276): optional `AND` conditions with bound values, then the sort
column and direction interpolated directly via
`format!(" ORDER BY {} {}", ...)`, then optional `LIMIT` / `OFFSET`.
Returns the query text and the bound parameter list.  Note that the
function is total: there is no validation or error path of any kind for
the sort strings. -/
def build_tasks_query (p : TaskQueryParams) : String × List String :=
  let (c1, b1) : List String × List String :=
    match p.epic with
    | some e => (["epic = ?"], [e])
    | none => ([], [])
  let (c2, b2) : List String × List String :=
    match p.status with
    | some s => (["status = ?"], [s])
    | none => ([], [])
  let (c3, b3) : List String × List String :=
    match p.assignee with
    | some a => (["assignee = ?"], [a])
    | none => ([], [])
  let (c4, b4) : List String × List String :=
    match p.search with
    | some s =>
      (["(title LIKE ? OR description LIKE ?)"],
        ["%" ++ s ++ "%", "%" ++ s ++ "%"])
    | none => ([], [])
  let conds := c1 ++ c2 ++ c3 ++ c4
  let q := baseSelect ++ String.join (conds.map (fun c => " AND " ++ c))
  let q := q ++ " ORDER BY " ++ sortColumnOf p.sort ++ " " ++ sortDirectionOf p.sort
  let q :=
    match p.limit with
    | some n =>
      q ++ " LIMIT " ++ toString n ++
        (match p.offset with
         | some m => " OFFSET " ++ toString m
         | none => "")
    | none => q
  (q, b1 ++ b2 ++ b3 ++ b4)

/-- ASCII lower-casing of one character, the case folding SQLite's
default `LIKE` applies. -/
def charFold (c : Char) : Char :=
  if 65 ≤ c.toNat ∧ c.toNat ≤ 90 then Char.ofNat (c.toNat + 32) else c

/-- SQLite `LIKE` pattern matching: `%` matches any sequence, `_` any
single character, other characters match up to ASCII case folding. -/
def likeMatch : List Char → List Char → Bool
  | [], [] => true
  | [], _ :: _ => false
  | p :: ps, s =>
    if p = '%' then
      likeMatch ps s ||
        (match s with
         | [] => false
         | _ :: s' => likeMatch (p :: ps) s')
    else if p = '_' then
      (match s with
       | [] => false
       | _ :: s' => likeMatch ps s')
    else
      (match s with
       | [] => false
       | c :: s' => charFold p = charFold c && likeMatch ps s')
termination_by p s => (p.length, s.length)

/-- String-level SQLite `LIKE`. -/
def stringLike (pattern s : String) : Bool := likeMatch pattern.data s.data

/-- The `(title LIKE ? OR description LIKE ?)` condition of `get_tasks`
with the bound pattern `%search%`. -/
def searchMatches (search : String) (r : TaskRow) : Bool :=
  stringLike ("%" ++ search ++ "%") r.title ||
    stringLike ("%" ++ search ++ "%") r.description

/-- The conjunction of the optional filter conditions `get_tasks` adds to
its `WHERE` clause.  A filter on a nullable column (`epic = ?`,
`assignee = ?`) is false on a `NULL` value, as in SQL. -/
def rowMatches (p : TaskQueryParams) (r : TaskRow) : Bool :=
  (match p.epic with
   | some e => decide (r.epic = some e)
   | none => true) &&
  (match p.status with
   | some s => decide (r.status = s)
   | none => true) &&
  (match p.assignee with
   | some a => decide (r.assignee = some a)
   | none => true) &&
  (match p.search with
   | some s => searchMatches s r
   | none => true)

/-- The sortable `TEXT NOT NULL` columns of the `tasks` table covered by
this model of query execution. -/
def textSortColumns : List String :=
  ["id", "title", "task_type", "priority", "status", "description",
    "created_at", "updated_at"]

/-- The value of a text sort column on a row. -/
def taskOrderKey (col : String) (r : TaskRow) : String :=
  if col = "id" then r.id
  else if col = "title" then r.title
  else if col = "task_type" then r.task_type
  else if col = "priority" then r.priority
  else if col = "status" then r.status
  else if col = "description" then r.description
  else if col = "created_at" then r.created_at
  else r.updated_at

/-- The result-assembly loop of `get_tasks` (`database.rs` lines
285–298): convert each row (`Task::from`, which can panic — `none`),
enrich it, and push it. -/
def enrichRows (db : Db) : List TaskRow → Option (List Task)
  | [] => some []
  | r :: rest =>
    match rowToTask r with
    | none => none
    | some t =>
      match enrichRows db rest with
      | none => none
      | some ts => some (enrichTask db t :: ts)

/-- `get_tasks` (`database.rs` lines 223–301): executes the query built
by `build_tasks_query` and enriches every returned row.  Execution is
modelled for queries whose interpolated `ORDER BY` names an actual text
column of the table and an `asc`/`desc` direction; any other interpolated
sort text yields invalid SQL or an unknown-column error at the storage
engine, and any row whose timestamps fail to parse panics in
`Task::from` — both modelled as `none`. -/
def get_tasks (db : Db) (p : TaskQueryParams) : Option (List Task) :=
  let col := sortColumnOf p.sort
  let dir := sortDirectionOf p.sort
  if col ∈ textSortColumns ∧ (dir = "asc" ∨ dir = "desc") then
    let rows := db.tasks.filter (rowMatches p)
    let le : TaskRow → TaskRow → Bool := fun a b =>
      if dir = "asc" then !decide (taskOrderKey col b < taskOrderKey col a)
      else !decide (taskOrderKey col a < taskOrderKey col b)
    let rows := sortByLe le rows
    let rows :=
      match p.limit with
      | some n =>
        (match p.offset with
         | some m => rows.drop m
         | none => rows).take n
      | none => rows
    enrichRows db rows
  else none

/-- `CreateTaskRequest` from `models.rs` (`r#type` named `rtype`). -/
structure CreateTaskRequest where
  title : String
  rtype : TaskType
  priority : Priority
  status : TaskStatus
  story_points : Option Int
  sprint : Option String
  epic : Option String
  description : String
  acceptance_criteria : List ChecklistItem
  technical_tasks : List ChecklistItem
  dependencies : List String
  blocks : List String
  assignee : Option String
  is_favorite : Option Bool
  thumbnail : Option String
deriving DecidableEq, Repr

/-- `UpdateTaskRequest` from `models.rs`: every field optional, the
nullable ones doubly so. -/
structure UpdateTaskRequest where
  title : Option String := none
  rtype : Option TaskType := none
  priority : Option Priority := none
  status : Option TaskStatus := none
  story_points : Option (Option Int) := none
  sprint : Option (Option String) := none
  epic : Option (Option String) := none
  description : Option String := none
  acceptance_criteria : Option (List ChecklistItem) := none
  technical_tasks : Option (List ChecklistItem) := none
  dependencies : Option (List String) := none
  blocks : Option (List String) := none
  assignee : Option (Option String) := none
  is_favorite : Option (Option Bool) := none
  thumbnail : Option (Option String) := none
deriving DecidableEq, Repr

/-- The `tasks` row inserted by `create_task` (`database.rs` lines
334–354): enums written via `format!("{:?}", ..)`, `is_favorite` via
`request.is_favorite.unwrap_or(false)`, both timestamps the same
`now.to_rfc3339()`. -/
def createRow (req : CreateTaskRequest) (id : String) (now : DateTimeUtc) :
    TaskRow :=
  { id := id
    title := req.title
    task_type := taskTypeToString req.rtype
    priority := priorityToString req.priority
    status := taskStatusToString req.status
    story_points := req.story_points
    sprint := req.sprint
    epic := req.epic
    description := req.description
    assignee := req.assignee
    is_favorite := some (req.is_favorite.getD false)
    thumbnail := req.thumbnail
    created_at := toRfc3339 now
    updated_at := toRfc3339 now }

/-- `create_task` (`database.rs` lines 330–367).  The nondeterministic
inputs of the Rust code are parameters: `id` for `Uuid::new_v4()`, `now`
for `Utc::now()`, and one fresh-identifier supply per child-insertion
loop.  Inserts the main row, replaces the two checklists and the two
relationship lists, then re-reads the aggregate
(`get_task_by_id(..).unwrap()`); `none` in the second component models a
panic on that final unwrap or on timestamp parsing. -/
def create_task (db : Db) (req : CreateTaskRequest) (id : String)
    (now : DateTimeUtc) (freshAc freshTt freshDep freshBlk : Nat → String) :
    Db × Option Task :=
  let db := { db with tasks := db.tasks ++ [createRow req id now] }
  let db := save_checklist_items db id req.acceptance_criteria
    "acceptance_criteria" freshAc
  let db := save_checklist_items db id req.technical_tasks
    "technical_tasks" freshTt
  let db := save_task_relationships db id req.dependencies .deps freshDep
  let db := save_task_relationships db id req.blocks .blocks freshBlk
  (db,
    match get_task_by_id db id with
    | some (some t) => some t
    | _ => none)

/-- The `update_fields` list `update_task` builds (`database.rs` lines
372–406): one `"<column> = ?"` entry per present field, then always
`"updated_at = ?"`. -/
def update_fields (req : UpdateTaskRequest) : List String :=
  (if req.title.isSome then ["title = ?"] else []) ++
  (if req.rtype.isSome then ["task_type = ?"] else []) ++
  (if req.priority.isSome then ["priority = ?"] else []) ++
  (if req.status.isSome then ["status = ?"] else []) ++
  (if req.story_points.isSome then ["story_points = ?"] else []) ++
  (if req.description.isSome then ["description = ?"] else []) ++
  ["updated_at = ?"]

/-- `update_task` (`database.rs` lines 369–420).  The function builds
`update_fields` and a parameter list but the statement it actually
executes is the hard-coded `UPDATE tasks SET updated_at = ? WHERE id = ?`
(the source comments call this a simplified update), so the only column
that changes is `updated_at`; the Rust function returns `Ok(())`
regardless of whether any row matched. -/
def update_task (db : Db) (task_id : String) (req : UpdateTaskRequest)
    (now : DateTimeUtc) : Db :=
  let _fields := update_fields req
  { db with tasks :=
      db.tasks.map (fun r =>
        if r.id = task_id then { r with updated_at := toRfc3339 now } else r) }

/-- `delete_task` (`database.rs` lines 422–429): `DELETE FROM tasks WHERE
id = ?`, and the `ON DELETE CASCADE` clauses of `checklist_items`,
`task_dependencies` and `task_blocks` (both foreign keys of each edge
table) remove the child rows.  Returns `Ok(())` whether or not a row
matched. -/
def delete_task (db : Db) (task_id : String) : Db :=
  { tasks := db.tasks.filter (fun r => !decide (r.id = task_id))
    checklist_items :=
      db.checklist_items.filter (fun c => !decide (c.task_id = task_id))
    task_dependencies :=
      db.task_dependencies.filter
        (fun e => !(decide (e.task_id = task_id) || decide (e.related_id = task_id)))
    task_blocks :=
      db.task_blocks.filter
        (fun e => !(decide (e.task_id = task_id) || decide (e.related_id = task_id))) }

/-- The response of `tasks_delete_handler`. -/
inductive DeleteResponse where
  | deleted
  | notFound
  | internalError
deriving DecidableEq, Repr

/-- `tasks_delete_handler` (`handlers.rs` lines 193–209): calls
`delete_task` and maps `Ok(_)` to the success body `{"deleted": true}`.
Since `delete_task` succeeds regardless of whether the id exists, the
handler has no path producing `notFound`. -/
def tasks_delete_handler (db : Db) (id : String) : Db × DeleteResponse :=
  (delete_task db id, .deleted)

/-- `get_average_story_points` (`database.rs` lines 622–628):
`SELECT AVG(CAST(story_points as REAL)) FROM tasks WHERE story_points IS
NOT NULL`, with SQL `NULL` (no rows) mapped to `0.0` by `unwrap_or`.
SQL `REAL` arithmetic is modelled exactly over `ℚ`. -/
def get_average_story_points (db : Db) : ℚ :=
  let pts := db.tasks.filterMap (fun r => r.story_points)
  if pts.length = 0 then 0
  else ((pts.sum : ℤ) : ℚ) / (pts.length : ℚ)

/-- `get_completion_rate` (`database.rs` lines 630–646): total row count,
early `0.0` when zero, else `COUNT(status = 'Done') / total * 100`. -/
def get_completion_rate (db : Db) : ℚ :=
  let total := db.tasks.length
  if total = 0 then 0
  else
    let completed := (db.tasks.filter (fun r => decide (r.status = "Done"))).length
    ((completed : ℚ) / (total : ℚ)) * 100

/-- The items of `save_checklist_items` as they come back from
`get_checklist_items`: every item keeps its identifier if it had one and
receives the generated one otherwise (index-indexed supply `fresh`). -/
def fillIdsFrom (fresh : Nat → String) : Nat → List ChecklistItem → List ChecklistItem
  | _, [] => []
  | i, item :: rest =>
    { id := some (item.id.getD (fresh i)), text := item.text,
      completed := item.completed } :: fillIdsFrom fresh (i + 1) rest

/-- A template row with valid timestamps, used by the concrete test
databases below. -/
def baseRow : TaskRow :=
  { id := "", title := "", task_type := "Task", priority := "Medium",
    status := "Todo", story_points := none, sprint := none, epic := none,
    description := "", assignee := none, is_favorite := some false,
    thumbnail := none, created_at := "2024-01-01T10:00:00+00:00",
    updated_at := "2024-01-01T10:00:00+00:00" }

/-- An index-based identifier supply standing for `Uuid::new_v4()`. -/
def freshA : Nat → String := fun n => "A" ++ toString n

def c1Row : TaskRow := { baseRow with id := "t1", title := "Original", status := "Todo" }

def c1Db : Db := ⟨[c1Row], [], [], []⟩

def c1Request : UpdateTaskRequest := { status := some TaskStatus.Done }

def c1Now : DateTimeUtc := ⟨2024, 1, 2, 10, 0, 0⟩

def c2Params : TaskQueryParams := { sort := some "id; DROP TABLE tasks" }

def c3Row : TaskRow := { baseRow with id := "t1", title := "Task to Delete" }

def c3Db : Db :=
  ⟨[c3Row],
    [{ id := "c1", task_id := "t1", item_type := "acceptance_criteria",
       text := "AC", completed := false, sort_order := 0 }],
    [{ id := "e1", task_id := "t1", related_id := "t2" }], []⟩

def c4Now : DateTimeUtc := ⟨2024, 1, 1, 12, 0, 0⟩

def c4Req : CreateTaskRequest :=
  { title := "Test Task", rtype := .Story, priority := .High, status := .Todo,
    story_points := some 5, sprint := some "Sprint 1", epic := some "Epic 1",
    description := "Test description",
    acceptance_criteria := [{ id := none, text := "AC 1", completed := false }],
    technical_tasks := [{ id := none, text := "Task 1", completed := true }],
    dependencies := [], blocks := [], assignee := some "user-1",
    is_favorite := some true, thumbnail := none }

def c5Req : CreateTaskRequest :=
  { c4Req with
    acceptance_criteria :=
      [{ id := none, text := "AC 1", completed := false },
       { id := some "keep-me", text := "AC 2", completed := true }],
    technical_tasks := [{ id := none, text := "TT 1", completed := false }] }

def c6Row1 : TaskRow :=
  { baseRow with
    id := "a", title := "Task 1", epic := some "E1",
    status := "Todo", updated_at := "2024-01-03T10:00:00+00:00" }

def c6Row2 : TaskRow :=
  { baseRow with
    id := "b", title := "Task 2", epic := some "E1",
    status := "Done", updated_at := "2024-01-02T10:00:00+00:00" }

def c6Row3 : TaskRow :=
  { baseRow with
    id := "c", title := "Task 3", epic := some "E2",
    status := "InProgress", updated_at := "2024-01-01T10:00:00+00:00" }

def c6Db : Db := ⟨[c6Row1, c6Row2, c6Row3], [], [], []⟩

def c7Row : TaskRow := { baseRow with id := "t1", created_at := "not-a-date" }

def c7Db : Db := ⟨[c7Row], [], [], []⟩

def c8Db : Db :=
  ⟨[{ baseRow with id := "1", status := "Done" },
    { baseRow with id := "2", status := "Todo" },
    { baseRow with id := "3", status := "Done" },
    { baseRow with id := "4", status := "InProgress" }], [], [], []⟩

def c9Db : Db :=
  ⟨[{ baseRow with id := "1", story_points := some 5 },
    { baseRow with id := "2", story_points := some 3 },
    { baseRow with id := "3", story_points := some 8 },
    { baseRow with id := "4", story_points := none }], [], [], []⟩

def c10Row : TaskRow :=
  { baseRow with
    id := "t1", task_type := "Widget", priority := "Urgent",
    status := "Corrupted" }

theorem taskTypeFromString_toString (t : TaskType) :
    taskTypeFromString (taskTypeToString t) = t := by
  cases t <;> decide

theorem priorityFromString_toString (p : Priority) :
    priorityFromString (priorityToString p) = p := by
  cases p <;> decide

theorem taskStatusFromString_toString (s : TaskStatus) :
    taskStatusFromString (taskStatusToString s) = s := by
  cases s <;> decide

theorem digitVal_digitChar : ∀ k, k < 10 → digitVal (digitChar k) = some k := by
  decide

theorem read2_pad2 (n : Nat) (h : n < 100) (r : List Char) :
    read2 (pad2 n ++ r) = some (n, r) := by
  have e1 := digitVal_digitChar (n / 10 % 10) (Nat.mod_lt _ (by omega))
  have e2 := digitVal_digitChar (n % 10) (Nat.mod_lt _ (by omega))
  simp only [pad2, List.cons_append, List.nil_append, read2, e1, e2,
    Option.some.injEq, Prod.mk.injEq]
  exact ⟨by omega, trivial⟩

theorem read4_pad4 (n : Nat) (h : n < 10000) (r : List Char) :
    read4 (pad4 n ++ r) = some (n, r) := by
  have e1 := digitVal_digitChar (n / 1000 % 10) (Nat.mod_lt _ (by omega))
  have e2 := digitVal_digitChar (n / 100 % 10) (Nat.mod_lt _ (by omega))
  have e3 := digitVal_digitChar (n / 10 % 10) (Nat.mod_lt _ (by omega))
  have e4 := digitVal_digitChar (n % 10) (Nat.mod_lt _ (by omega))
  simp only [pad4, List.cons_append, List.nil_append, read4, e1, e2, e3, e4,
    Option.some.injEq, Prod.mk.injEq]
  exact ⟨by omega, trivial⟩

theorem expectChar_cons_self (c : Char) (r : List Char) :
    expectChar c (c :: r) = some r := by
  simp [expectChar]

/-- The RFC 3339 rendering round-trips through the parser for every
valid instant; in particular the timestamps this program writes are
always read back unchanged. -/
theorem parseRfc3339_toRfc3339 (d : DateTimeUtc) (h : d.Valid) :
    parseRfc3339 (toRfc3339 d) = some d := by
  obtain ⟨h1, h2, h3, h4, h5, h6⟩ := h
  have hdata : (toRfc3339 d).data = rfc3339Chars d := rfl
  simp only [parseRfc3339, hdata, rfc3339Chars, parseRfc3339Chars,
    read4_pad4 d.year h1, expectChar_cons_self,
    read2_pad2 d.month h2, read2_pad2 d.day h3, read2_pad2 d.hour h4,
    read2_pad2 d.minute h5, read2_pad2 d.second h6]
  simp [expectEnd]

theorem mem_insertLe (le : α → α → Bool) (a x : α) (l : List α) :
    x ∈ insertLe le a l ↔ x = a ∨ x ∈ l := by
  induction l with
  | nil => simp [insertLe]
  | cons b t ih =>
    by_cases h : le a b = true
    · simp [insertLe, h, List.mem_cons]
    · simp only [insertLe, if_neg h, List.mem_cons, ih]
      tauto

theorem mem_sortByLe (le : α → α → Bool) (x : α) (l : List α) :
    x ∈ sortByLe le l ↔ x ∈ l := by
  induction l with
  | nil => simp [sortByLe]
  | cons a t ih => simp [sortByLe, mem_insertLe, ih]

theorem sortByLe_eq_self (le : α → α → Bool) (l : List α)
    (h : l.Pairwise (fun a b => le a b = true)) : sortByLe le l = l := by
  induction l with
  | nil => rfl
  | cons a t ih =>
    rw [List.pairwise_cons] at h
    rw [sortByLe, ih h.2]
    cases t with
    | nil => rfl
    | cons b t' => rw [insertLe, if_pos (h.1 b (by simp))]

theorem find?_append_of_none (p : α → Bool) (l₁ l₂ : List α)
    (h : l₁.find? p = none) : (l₁ ++ l₂).find? p = l₂.find? p := by
  induction l₁ with
  | nil => simp
  | cons a t ih =>
    cases hp : p a with
    | true =>
      rw [List.find?_cons_of_pos _ hp] at h
      exact absurd h (by simp)
    | false =>
      have hp' : ¬ p a = true := by simp [hp]
      rw [List.find?_cons_of_neg _ hp'] at h
      rw [List.cons_append, List.find?_cons_of_neg _ hp']
      exact ih h

@[simp] theorem save_checklist_items_tasks (db : Db) (tid : String)
    (items : List ChecklistItem) (ty : String) (f : Nat → String) :
    (save_checklist_items db tid items ty f).tasks = db.tasks := rfl

@[simp] theorem save_checklist_items_deps (db : Db) (tid : String)
    (items : List ChecklistItem) (ty : String) (f : Nat → String) :
    (save_checklist_items db tid items ty f).task_dependencies =
      db.task_dependencies := rfl

@[simp] theorem save_checklist_items_blocks (db : Db) (tid : String)
    (items : List ChecklistItem) (ty : String) (f : Nat → String) :
    (save_checklist_items db tid items ty f).task_blocks = db.task_blocks := rfl

theorem save_checklist_items_checklist (db : Db) (tid : String)
    (items : List ChecklistItem) (ty : String) (f : Nat → String) :
    (save_checklist_items db tid items ty f).checklist_items =
      db.checklist_items.filter (fun c => !checklistRowMatches tid ty c)
        ++ emitRows tid ty f 0 items := rfl

@[simp] theorem save_task_relationships_tasks (db : Db) (tid : String)
    (ids : List String) (tbl : RelTable) (f : Nat → String) :
    (save_task_relationships db tid ids tbl f).tasks = db.tasks := by
  cases tbl <;> rfl

@[simp] theorem save_task_relationships_checklist (db : Db) (tid : String)
    (ids : List String) (tbl : RelTable) (f : Nat → String) :
    (save_task_relationships db tid ids tbl f).checklist_items =
      db.checklist_items := by
  cases tbl <;> rfl

theorem relList_setRelList_self (db : Db) (tbl : RelTable) (l : List EdgeRow) :
    relList (setRelList db tbl l) tbl = l := by
  cases tbl <;> rfl

theorem relList_setRelList_other (db : Db) (tbl tbl' : RelTable)
    (l : List EdgeRow) (h : tbl ≠ tbl') :
    relList (setRelList db tbl l) tbl' = relList db tbl' := by
  cases tbl <;> cases tbl' <;> first | rfl | exact absurd rfl h

theorem mem_emitRows (tid ty : String) (f : Nat → String) (items : List ChecklistItem) :
    ∀ i r, r ∈ emitRows tid ty f i items →
      r.task_id = tid ∧ r.item_type = ty ∧ i ≤ r.sort_order := by
  induction items with
  | nil => intro i r h; simp [emitRows] at h
  | cons item rest ih =>
    intro i r h
    rw [emitRows, List.mem_cons] at h
    rcases h with h | h
    · subst h; exact ⟨rfl, rfl, le_refl _⟩
    · obtain ⟨h1, h2, h3⟩ := ih (i + 1) r h
      exact ⟨h1, h2, by omega⟩

theorem emitRows_filter_self (tid ty : String) (f : Nat → String)
    (items : List ChecklistItem) (i : Nat) :
    (emitRows tid ty f i items).filter (checklistRowMatches tid ty) =
      emitRows tid ty f i items := by
  apply List.filter_eq_self.mpr
  intro r hr
  obtain ⟨h1, h2, _⟩ := mem_emitRows tid ty f items i r hr
  simp [checklistRowMatches, h1, h2]

theorem emitRows_filter_other (tid ty tid' ty' : String) (f : Nat → String)
    (items : List ChecklistItem) (i : Nat) (h : tid' ≠ tid ∨ ty' ≠ ty) :
    (emitRows tid ty f i items).filter (checklistRowMatches tid' ty') = [] := by
  apply List.filter_eq_nil_iff.mpr
  intro r hr
  obtain ⟨h1, h2, _⟩ := mem_emitRows tid ty f items i r hr
  simp only [checklistRowMatches, h1, h2, Bool.and_eq_true, decide_eq_true_eq]
  rcases h with h | h
  · exact fun hc => h hc.1.symm
  · exact fun hc => h hc.2.symm

theorem emitRows_pairwise (tid ty : String) (f : Nat → String)
    (items : List ChecklistItem) (i : Nat) :
    (emitRows tid ty f i items).Pairwise
      (fun a b => decide (a.sort_order ≤ b.sort_order) = true) := by
  induction items generalizing i with
  | nil => exact List.Pairwise.nil
  | cons item rest ih =>
    rw [emitRows, List.pairwise_cons]
    refine ⟨fun r hr => ?_, ih (i + 1)⟩
    obtain ⟨_, _, h3⟩ := mem_emitRows tid ty f rest (i + 1) r hr
    simp only [decide_eq_true_eq]
    omega

theorem emitRows_map_toItem (tid ty : String) (f : Nat → String)
    (items : List ChecklistItem) (i : Nat) :
    (emitRows tid ty f i items).map
        (fun r => ({ id := some r.id, text := r.text, completed := r.completed } :
          ChecklistItem)) =
      fillIdsFrom f i items := by
  induction items generalizing i with
  | nil => rfl
  | cons item rest ih =>
    rw [emitRows, fillIdsFrom, List.map_cons, ih (i + 1)]

/-- Reading back the category just saved returns exactly the saved items
in order, identifiers filled in. -/
theorem get_checklist_items_save_self (db : Db) (tid : String)
    (items : List ChecklistItem) (ty : String) (f : Nat → String) :
    get_checklist_items (save_checklist_items db tid items ty f) tid ty =
      fillIdsFrom f 0 items := by
  rw [get_checklist_items, checklistItemsOf, save_checklist_items_checklist,
    List.filter_append, List.filter_filter]
  have h1 : db.checklist_items.filter
      (fun a => checklistRowMatches tid ty a && !checklistRowMatches tid ty a) = [] := by
    apply List.filter_eq_nil_iff.mpr
    intro r _
    cases checklistRowMatches tid ty r <;> simp
  rw [h1, emitRows_filter_self, List.nil_append,
    sortByLe_eq_self _ _ (emitRows_pairwise tid ty f items 0),
    emitRows_map_toItem]

/-- Saving one category leaves every other `(task, category)` pair of the
checklist table unchanged. -/
theorem get_checklist_items_save_other (db : Db) (tid : String)
    (items : List ChecklistItem) (ty : String) (f : Nat → String)
    (tid' ty' : String) (h : tid' ≠ tid ∨ ty' ≠ ty) :
    get_checklist_items (save_checklist_items db tid items ty f) tid' ty' =
      get_checklist_items db tid' ty' := by
  rw [get_checklist_items, get_checklist_items, checklistItemsOf, checklistItemsOf,
    save_checklist_items_checklist, List.filter_append, List.filter_filter,
    emitRows_filter_other tid ty tid' ty' f items 0 h, List.append_nil]
  congr 2
  apply List.filter_congr
  intro r _
  rcases hm : checklistRowMatches tid' ty' r with _ | _
  · simp
  · have : checklistRowMatches tid ty r = false := by
      simp only [checklistRowMatches, Bool.and_eq_true, decide_eq_true_eq] at hm
      simp only [checklistRowMatches, Bool.and_eq_false_iff, decide_eq_false_iff_not]
      rcases h with h | h
      · exact Or.inl (fun hc => h (hm.1 ▸ hc ▸ rfl))
      · exact Or.inr (fun hc => h (hm.2 ▸ hc ▸ rfl))
    simp [this]

theorem mem_emitEdges (tid : String) (f : Nat → String) (ids : List String) :
    ∀ i e, e ∈ emitEdges tid f i ids → e.task_id = tid := by
  induction ids with
  | nil => intro i e h; simp [emitEdges] at h
  | cons rid rest ih =>
    intro i e h
    rw [emitEdges, List.mem_cons] at h
    rcases h with h | h
    · subst h; rfl
    · exact ih (i + 1) e h

theorem emitEdges_map_related (tid : String) (f : Nat → String)
    (ids : List String) (i : Nat) :
    (emitEdges tid f i ids).map (fun e => e.related_id) = ids := by
  induction ids generalizing i with
  | nil => rfl
  | cons rid rest ih => rw [emitEdges, List.map_cons, ih (i + 1)]

/-- Reading back the relationship list just saved returns exactly the
saved ids in order. -/
theorem get_task_relationships_save_self (db : Db) (tid : String)
    (ids : List String) (tbl : RelTable) (f : Nat → String) :
    get_task_relationships (save_task_relationships db tid ids tbl f) tid tbl =
      ids := by
  rw [get_task_relationships, save_task_relationships, relList_setRelList_self,
    List.filter_append, List.filter_filter]
  have h1 : (relList db tbl).filter
      (fun a => decide (a.task_id = tid) && !decide (a.task_id = tid)) = [] := by
    apply List.filter_eq_nil_iff.mpr
    intro e _
    cases decide (e.task_id = tid) <;> simp
  have h2 : (emitEdges tid f 0 ids).filter (fun e => decide (e.task_id = tid)) =
      emitEdges tid f 0 ids := by
    apply List.filter_eq_self.mpr
    intro e he
    simp [mem_emitEdges tid f ids 0 e he]
  rw [h1, h2, List.nil_append, emitEdges_map_related]

/-- Saving one relationship table leaves the other unchanged. -/
theorem get_task_relationships_save_other (db : Db) (tid : String)
    (ids : List String) (tbl tbl' : RelTable) (f : Nat → String)
    (tid' : String) (h : tbl ≠ tbl') :
    get_task_relationships (save_task_relationships db tid ids tbl f) tid' tbl' =
      get_task_relationships db tid' tbl' := by
  rw [get_task_relationships, get_task_relationships, save_task_relationships,
    relList_setRelList_other db tbl tbl' _ h]

@[simp] theorem get_checklist_items_save_rel (db : Db) (tid : String)
    (ids : List String) (tbl : RelTable) (f : Nat → String)
    (tid' ty' : String) :
    get_checklist_items (save_task_relationships db tid ids tbl f) tid' ty' =
      get_checklist_items db tid' ty' := by
  rw [get_checklist_items, get_checklist_items,
    save_task_relationships_checklist]

@[simp] theorem get_task_relationships_save_checklist (db : Db) (tid : String)
    (items : List ChecklistItem) (ty : String) (f : Nat → String)
    (tid' : String) (tbl : RelTable) :
    get_task_relationships (save_checklist_items db tid items ty f) tid' tbl =
      get_task_relationships db tid' tbl := by
  cases tbl <;> rfl

@[simp] theorem get_checklist_items_set_tasks (db : Db) (l : List TaskRow)
    (tid ty : String) :
    get_checklist_items { db with tasks := l } tid ty =
      get_checklist_items db tid ty := rfl

@[simp] theorem get_task_relationships_set_tasks (db : Db) (l : List TaskRow)
    (tid : String) (tbl : RelTable) :
    get_task_relationships { db with tasks := l } tid tbl =
      get_task_relationships db tid tbl := by
  cases tbl <;> rfl

/-- `Task::from(TaskRow)` on the row `create_task` inserts: the enum
strings decode back to the request's enums and both timestamps parse
back to `now`. -/
theorem rowToTask_createRow (req : CreateTaskRequest) (id : String)
    (now : DateTimeUtc) (hnow : now.Valid) :
    rowToTask (createRow req id now) =
      some {
        id := id, title := req.title, rtype := req.rtype,
        priority := req.priority, status := req.status,
        story_points := req.story_points, sprint := req.sprint,
        epic := req.epic, description := req.description,
        acceptance_criteria := [], technical_tasks := [],
        dependencies := [], blocks := [], assignee := req.assignee,
        is_favorite := some (req.is_favorite.getD false),
        thumbnail := req.thumbnail, created_at := now, updated_at := now } := by
  rw [rowToTask]
  simp only [createRow, parseRfc3339_toRfc3339 now hnow,
    taskTypeFromString_toString, priorityFromString_toString,
    taskStatusFromString_toString]

/-- What `create_task` returns from its final re-read: the aggregate with
the request's scalar fields, both checklists in order with identifiers
filled in, both relationship lists verbatim, and the two timestamps both
equal to `now`. -/
theorem create_task_result (db : Db) (req : CreateTaskRequest) (id : String)
    (now : DateTimeUtc) (freshAc freshTt freshDep freshBlk : Nat → String)
    (hid : db.tasks.find? (fun r => decide (r.id = id)) = none)
    (hnow : now.Valid) :
    (create_task db req id now freshAc freshTt freshDep freshBlk).2 =
      some {
        id := id, title := req.title, rtype := req.rtype,
        priority := req.priority, status := req.status,
        story_points := req.story_points, sprint := req.sprint,
        epic := req.epic, description := req.description,
        acceptance_criteria := fillIdsFrom freshAc 0 req.acceptance_criteria,
        technical_tasks := fillIdsFrom freshTt 0 req.technical_tasks,
        dependencies := req.dependencies, blocks := req.blocks,
        assignee := req.assignee,
        is_favorite := some (req.is_favorite.getD false),
        thumbnail := req.thumbnail, created_at := now, updated_at := now } := by
  rw [create_task]
  have hrow : (createRow req id now).id = id := rfl
  set db1 : Db := { db with tasks := db.tasks ++ [createRow req id now] } with hdb1
  set db2 : Db := save_checklist_items db1 id req.acceptance_criteria
    "acceptance_criteria" freshAc with hdb2
  set db3 : Db := save_checklist_items db2 id req.technical_tasks
    "technical_tasks" freshTt with hdb3
  set db4 : Db := save_task_relationships db3 id req.dependencies .deps freshDep
    with hdb4
  set db5 : Db := save_task_relationships db4 id req.blocks .blocks freshBlk
    with hdb5
  have htasks : db5.tasks = db.tasks ++ [createRow req id now] := by
    rw [hdb5, hdb4, save_task_relationships_tasks, save_task_relationships_tasks,
      hdb3, hdb2, save_checklist_items_tasks, save_checklist_items_tasks, hdb1]
  have hfind : db5.tasks.find? (fun r => decide (r.id = id)) =
      some (createRow req id now) := by
    rw [htasks, find?_append_of_none _ _ _ hid, List.find?_cons_of_pos]
    simp [createRow]
  have hac : get_checklist_items db5 id "acceptance_criteria" =
      fillIdsFrom freshAc 0 req.acceptance_criteria := by
    rw [hdb5, hdb4]
    rw [get_checklist_items_save_rel, get_checklist_items_save_rel, hdb3]
    rw [get_checklist_items_save_other _ _ _ _ _ _ _ (Or.inr (by decide)), hdb2]
    rw [get_checklist_items_save_self]
  have htt : get_checklist_items db5 id "technical_tasks" =
      fillIdsFrom freshTt 0 req.technical_tasks := by
    rw [hdb5, hdb4]
    rw [get_checklist_items_save_rel, get_checklist_items_save_rel, hdb3]
    rw [get_checklist_items_save_self]
  have hdep : get_task_relationships db5 id .deps = req.dependencies := by
    rw [hdb5]
    rw [get_task_relationships_save_other _ _ _ _ _ _ _ (by decide), hdb4]
    rw [get_task_relationships_save_self]
  have hblk : get_task_relationships db5 id .blocks = req.blocks := by
    rw [hdb5, get_task_relationships_save_self]
  rw [get_task_by_id, hfind]
  simp only [rowToTask_createRow req id now hnow, enrichTask, hac, htt, hdep, hblk]

theorem fillIdsFrom_map_pair (f : Nat → String) (items : List ChecklistItem) :
    ∀ i, (fillIdsFrom f i items).map (fun it => (it.text, it.completed)) =
      items.map (fun it => (it.text, it.completed)) := by
  induction items with
  | nil => intro i; rfl
  | cons item rest ih => intro i; rw [fillIdsFrom, List.map_cons, List.map_cons, ih]

theorem fillIdsFrom_map_text (f : Nat → String) (items : List ChecklistItem) :
    ∀ i, (fillIdsFrom f i items).map ChecklistItem.text =
      items.map ChecklistItem.text := by
  induction items with
  | nil => intro i; rfl
  | cons item rest ih => intro i; rw [fillIdsFrom, List.map_cons, List.map_cons, ih]

theorem fillIdsFrom_length (f : Nat → String) (items : List ChecklistItem) :
    ∀ i, (fillIdsFrom f i items).length = items.length := by
  induction items with
  | nil => intro i; rfl
  | cons item rest ih => intro i; rw [fillIdsFrom, List.length_cons, List.length_cons, ih]

theorem filter_not_filter (p : α → Bool) (l : List α) :
    (l.filter (fun a => !p a)).filter p = [] := by
  rw [List.filter_filter]
  apply List.filter_eq_nil_iff.mpr
  intro a _
  cases p a <;> simp

/-- After a save, the rows of the saved `(task, category)` pair are
exactly the freshly inserted ones: the old rows of that pair are gone. -/
theorem save_checklist_items_rows_of_category (db : Db) (tid : String)
    (items : List ChecklistItem) (ty : String) (f : Nat → String) :
    (save_checklist_items db tid items ty f).checklist_items.filter
        (checklistRowMatches tid ty) =
      emitRows tid ty f 0 items := by
  rw [save_checklist_items_checklist, List.filter_append,
    filter_not_filter, List.nil_append, emitRows_filter_self]

theorem length_insertLe (le : α → α → Bool) (a : α) (l : List α) :
    (insertLe le a l).length = l.length + 1 := by
  induction l with
  | nil => rfl
  | cons b t ih =>
    by_cases h : le a b = true
    · simp [insertLe, h]
    · simp [insertLe, h, ih]

theorem length_sortByLe (le : α → α → Bool) (l : List α) :
    (sortByLe le l).length = l.length := by
  induction l with
  | nil => rfl
  | cons a t ih => rw [sortByLe, length_insertLe, ih, List.length_cons]

theorem likeMatch_drop_percent {ps s : List Char} (h : likeMatch ps s = true) :
    likeMatch ('%' :: ps) s = true := by
  cases s with
  | nil => simp [likeMatch, h]
  | cons c s' => simp [likeMatch, h]

theorem likeMatch_percent_cons {ps s : List Char} (c : Char)
    (h : likeMatch ('%' :: ps) s = true) :
    likeMatch ('%' :: ps) (c :: s) = true := by
  simp only [likeMatch]
  simp only [if_true, Bool.or_eq_true]
  exact Or.inr h

theorem likeMatch_percent_append {ps t : List Char} (s : List Char)
    (h : likeMatch ps t = true) :
    likeMatch ('%' :: ps) (s ++ t) = true := by
  induction s with
  | nil => exact likeMatch_drop_percent h
  | cons c s' ih => exact likeMatch_percent_cons c ih

theorem likeMatch_literal_append (s : List Char) {ps t : List Char}
    (h : likeMatch ps t = true) :
    likeMatch (s ++ ps) (s ++ t) = true := by
  induction s with
  | nil => exact h
  | cons c s' ih =>
    by_cases hp : c = '%'
    · subst hp
      exact likeMatch_percent_cons _ (likeMatch_drop_percent ih)
    · by_cases hu : c = '_'
      · subst hu
        rw [List.cons_append, List.cons_append]
        simp only [likeMatch]
        simp only [if_false, if_true,
          show (('_' : Char) = '%') = False by simp, show (('_' : Char) = '_') = True by simp]
        exact ih
      · rw [List.cons_append, List.cons_append]
        simp [likeMatch, hp, hu, ih]

theorem likeMatch_percent_nil_end (t : List Char) :
    likeMatch ['%'] t = true := by
  induction t with
  | nil => simp [likeMatch]
  | cons c t' ih =>
    simp only [likeMatch]
    simp only [if_true, Bool.or_eq_true]
    exact Or.inr ih

/-- A string that occurs verbatim inside the text is matched by the LIKE
pattern `%needle%`: the substring property of the free-text search. -/
theorem likeMatch_contains (needle pre post : List Char) :
    likeMatch ('%' :: (needle ++ ['%'])) (pre ++ (needle ++ post)) = true := by
  exact likeMatch_percent_append pre
    (likeMatch_literal_append needle (likeMatch_percent_nil_end post))

theorem searchMatches_of_substring (needle : String) (r : TaskRow)
    (h : (∃ pre post, r.title.data = pre ++ needle.data ++ post) ∨
         (∃ pre post, r.description.data = pre ++ needle.data ++ post)) :
    searchMatches needle r = true := by
  have hpat : ("%" ++ needle ++ "%").data = '%' :: (needle.data ++ ['%']) := by
    have : ("%" ++ needle ++ "%").data = "%".data ++ needle.data ++ "%".data := by
      simp [String.data_append]
    rw [this]
    rfl
  rcases h with ⟨pre, post, hh⟩ | ⟨pre, post, hh⟩
  · apply Bool.or_eq_true_iff.mpr
    left
    rw [stringLike, hpat, hh, List.append_assoc]
    exact likeMatch_contains needle.data pre post
  · apply Bool.or_eq_true_iff.mpr
    right
    rw [stringLike, hpat, hh, List.append_assoc]
    exact likeMatch_contains needle.data pre post

/-- `rowMatches` is the logical conjunction of the individually supplied
filter conditions. -/
theorem rowMatches_iff (p : TaskQueryParams) (r : TaskRow) :
    rowMatches p r = true ↔
      ((∀ e, p.epic = some e → r.epic = some e) ∧
       (∀ s, p.status = some s → r.status = s) ∧
       (∀ a, p.assignee = some a → r.assignee = some a) ∧
       (∀ s, p.search = some s → searchMatches s r = true)) := by
  obtain ⟨ls, pe, pst, pa, pl, po, pso, pse⟩ := p
  rw [rowMatches]
  cases pe <;> cases pst <;> cases pa <;> cases pse <;>
    simp [decide_eq_true_eq, and_assoc]

/-- When every row converts, the assembly loop of `get_tasks` succeeds
and returns the enrichment of the rows, characterised by length and
membership. -/
theorem enrichRows_char (db : Db) (l : List TaskRow)
    (h : ∀ r ∈ l, (rowToTask r).isSome = true) :
    ∃ ts, enrichRows db l = some ts ∧ ts.length = l.length ∧
      ∀ t, t ∈ ts ↔ ∃ r ∈ l, (rowToTask r).map (enrichTask db) = some t := by
  induction l with
  | nil =>
    refine ⟨[], rfl, rfl, ?_⟩
    simp
  | cons r rest ih =>
    obtain ⟨t0, ht0⟩ := Option.isSome_iff_exists.mp (h r (by simp))
    obtain ⟨ts, hts, hlen, hmem⟩ := ih (fun x hx => h x (by simp [hx]))
    refine ⟨enrichTask db t0 :: ts, ?_, by simp [hlen], ?_⟩
    · rw [enrichRows, ht0, hts]
    · intro t
      simp only [List.mem_cons, hmem]
      constructor
      · rintro (rfl | ⟨r', hr', hr'2⟩)
        · exact ⟨r, by simp, by rw [ht0]; rfl⟩
        · exact ⟨r', by simp [hr'], hr'2⟩
      · rintro ⟨r', hr', hr'2⟩
        rcases hr' with rfl | hr'mem
        · left
          rw [ht0] at hr'2
          simpa using hr'2.symm
        · right
          exact ⟨r', hr'mem, hr'2⟩

/-- C1 (code_bug evidence): the spec requires `update(id, {status: Done})`
followed by `getById(id)` to show status `Done`.  The code builds the
field list (`update_fields` below does contain `"status = ?"`) but then
executes only `UPDATE tasks SET updated_at = ?`, so after the update the
task's status is still `Todo`; only `updated_at` was refreshed. -/
theorem update_task_ignores_present_fields :
    update_fields c1Request = ["status = ?", "updated_at = ?"] ∧
    (update_task c1Db "t1" c1Request c1Now).tasks.map TaskRow.updated_at =
      [toRfc3339 c1Now] ∧
    (get_task_by_id (update_task c1Db "t1" c1Request c1Now) "t1").map
        (Option.map Task.status) = some (some TaskStatus.Todo) := by
  refine ⟨rfl, rfl, ?_⟩
  decide

/-- C2 (code_bug evidence): the spec requires the query builder to reject
a sort specification outside the allow-list with `InvalidQuery`.  The
builder has no error path at all: for
`sort = "id; DROP TABLE tasks"` it splices the full text verbatim into
the `ORDER BY` clause of the produced SQL, and the failure (if any)
happens only later inside the storage engine (`get_tasks = none`), never
as an `InvalidQuery` rejection. -/
theorem build_tasks_query_passes_injection_through :
    build_tasks_query c2Params =
      (baseSelect ++ " ORDER BY id; DROP TABLE tasks desc", []) ∧
    sortColumnOf c2Params.sort = "id; DROP TABLE tasks" ∧
    get_tasks ⟨[], [], [], []⟩ c2Params = none := by
  refine ⟨?_, rfl, ?_⟩
  · rfl
  · decide

/-- C3 (counterexample): deleting the same existing task twice — the
claim says the second call returns `NotFound`, but the handler maps the
unconditional `Ok(())` of `delete_task` to the success response, so the
second call also answers `deleted`. -/
theorem second_delete_returns_success :
    (tasks_delete_handler (tasks_delete_handler c3Db "t1").1 "t1").2 =
        DeleteResponse.deleted ∧
    (tasks_delete_handler (tasks_delete_handler c3Db "t1").1 "t1").2 ≠
        DeleteResponse.notFound := by
  exact ⟨rfl, by decide⟩

/-- C3 (amended): `delete(id)` always reports success — also on a missing
id, so the second of two deletes returns success rather than `NotFound` —
and no foreign-key error can occur because the cascade removes every
child row: after the delete no task row, checklist row or relationship
edge referencing the id remains. -/
theorem delete_task_succeeds_and_cascades (db : Db) (id : String) :
    (tasks_delete_handler db id).2 = DeleteResponse.deleted ∧
    (delete_task db id).tasks.filter (fun r => decide (r.id = id)) = [] ∧
    (delete_task db id).checklist_items.filter
      (fun c => decide (c.task_id = id)) = [] ∧
    (delete_task db id).task_dependencies.filter
      (fun e => decide (e.task_id = id) || decide (e.related_id = id)) = [] ∧
    (delete_task db id).task_blocks.filter
      (fun e => decide (e.task_id = id) || decide (e.related_id = id)) = [] := by
  refine ⟨rfl, ?_, ?_, ?_, ?_⟩
  · exact filter_not_filter _ db.tasks
  · exact filter_not_filter _ db.checklist_items
  · exact filter_not_filter _ db.task_dependencies
  · exact filter_not_filter _ db.task_blocks

/-- C4: `create` writes the aggregate under a fresh id and the re-read it
returns carries every supplied field of the request unchanged —
scalar fields and both relationship lists verbatim, checklist items with
their text and completed flag in order — and `createdAt == updatedAt`,
both equal to the creation instant. -/
theorem create_task_returns_request (db : Db) (req : CreateTaskRequest)
    (id : String) (now : DateTimeUtc)
    (freshAc freshTt freshDep freshBlk : Nat → String)
    (hid : ∀ r ∈ db.tasks, r.id ≠ id) (hnow : now.Valid) :
    ∃ t, (create_task db req id now freshAc freshTt freshDep freshBlk).2 =
        some t ∧
      t.id = id ∧ t.created_at = now ∧ t.updated_at = now ∧
      t.title = req.title ∧ t.rtype = req.rtype ∧ t.priority = req.priority ∧
      t.status = req.status ∧ t.story_points = req.story_points ∧
      t.sprint = req.sprint ∧ t.epic = req.epic ∧
      t.description = req.description ∧ t.assignee = req.assignee ∧
      t.thumbnail = req.thumbnail ∧
      (∀ b, req.is_favorite = some b → t.is_favorite = some b) ∧
      t.acceptance_criteria.map (fun i => (i.text, i.completed)) =
        req.acceptance_criteria.map (fun i => (i.text, i.completed)) ∧
      t.technical_tasks.map (fun i => (i.text, i.completed)) =
        req.technical_tasks.map (fun i => (i.text, i.completed)) ∧
      t.dependencies = req.dependencies ∧ t.blocks = req.blocks := by
  have hfind : db.tasks.find? (fun r => decide (r.id = id)) = none :=
    List.find?_eq_none.mpr (fun a ha => by simpa using hid a ha)
  rw [create_task_result db req id now freshAc freshTt freshDep freshBlk hfind hnow]
  refine ⟨_, rfl, rfl, rfl, rfl, rfl, rfl, rfl, rfl, rfl, rfl, rfl, rfl, rfl,
    rfl, ?_, ?_, ?_, rfl, rfl⟩
  · intro b hb
    show some ((CreateTaskRequest.is_favorite req).getD false) = some b
    rw [hb]
    rfl
  · exact fillIdsFrom_map_pair freshAc req.acceptance_criteria 0
  · exact fillIdsFrom_map_pair freshTt req.technical_tasks 0

theorem create_task_returns_request_witness :
    ((create_task ⟨[], [], [], []⟩ c4Req "t1" c4Now freshA freshA freshA
        freshA).2.map Task.created_at = some c4Now) ∧
    ((create_task ⟨[], [], [], []⟩ c4Req "t1" c4Now freshA freshA freshA
        freshA).2.map Task.updated_at = some c4Now) ∧
    ((create_task ⟨[], [], [], []⟩ c4Req "t1" c4Now freshA freshA freshA
        freshA).2.map Task.title = some "Test Task") := by
  obtain ⟨t, ht, _, hc, hu, htl, _⟩ :=
    create_task_returns_request ⟨[], [], [], []⟩ c4Req "t1" c4Now
      freshA freshA freshA freshA (by simp) (by decide)
  rw [ht]
  simp [hc, hu, htl, c4Req]

/-- C5: a task created with N acceptance-criteria and M technical-task
items re-reads with exactly N and M items in the original order, and
saving a checklist category is a wholesale replace: after
`save_checklist_items` the only rows of that `(task, category)` pair are
the freshly inserted ones (`emitRows` — the old rows are deleted), and
reading the category back yields exactly the given items, each id-less
item having received the generated identifier (`fillIdsFrom`). -/
theorem checklist_roundtrip_and_replace (db : Db) (req : CreateTaskRequest)
    (id : String) (now : DateTimeUtc)
    (freshAc freshTt freshDep freshBlk : Nat → String)
    (hid : ∀ r ∈ db.tasks, r.id ≠ id) (hnow : now.Valid) :
    (∃ t, (create_task db req id now freshAc freshTt freshDep freshBlk).2 =
        some t ∧
      t.acceptance_criteria.length = req.acceptance_criteria.length ∧
      t.technical_tasks.length = req.technical_tasks.length ∧
      t.acceptance_criteria.map ChecklistItem.text =
        req.acceptance_criteria.map ChecklistItem.text ∧
      t.technical_tasks.map ChecklistItem.text =
        req.technical_tasks.map ChecklistItem.text) ∧
    (∀ (db' : Db) (tid : String) (items : List ChecklistItem) (ty : String)
        (f : Nat → String),
      (save_checklist_items db' tid items ty f).checklist_items.filter
          (checklistRowMatches tid ty) = emitRows tid ty f 0 items ∧
      get_checklist_items (save_checklist_items db' tid items ty f) tid ty =
        fillIdsFrom f 0 items) := by
  constructor
  · have hfind : db.tasks.find? (fun r => decide (r.id = id)) = none :=
      List.find?_eq_none.mpr (fun a ha => by simpa using hid a ha)
    rw [create_task_result db req id now freshAc freshTt freshDep freshBlk
      hfind hnow]
    exact ⟨_, rfl, fillIdsFrom_length freshAc req.acceptance_criteria 0,
      fillIdsFrom_length freshTt req.technical_tasks 0,
      fillIdsFrom_map_text freshAc req.acceptance_criteria 0,
      fillIdsFrom_map_text freshTt req.technical_tasks 0⟩
  · intro db' tid items ty f
    exact ⟨save_checklist_items_rows_of_category db' tid items ty f,
      get_checklist_items_save_self db' tid items ty f⟩

theorem checklist_roundtrip_and_replace_witness :
    ((create_task ⟨[], [], [], []⟩ c5Req "t1" c4Now freshA freshA freshA
        freshA).2.map (fun t => t.acceptance_criteria.length) = some 2) ∧
    ((create_task ⟨[], [], [], []⟩ c5Req "t1" c4Now freshA freshA freshA
        freshA).2.map (fun t => t.technical_tasks.length) = some 1) ∧
    ((create_task ⟨[], [], [], []⟩ c5Req "t1" c4Now freshA freshA freshA
        freshA).2.map (fun t => t.acceptance_criteria.map ChecklistItem.text) =
      some ["AC 1", "AC 2"]) := by
  obtain ⟨⟨t, ht, hl1, hl2, hm1, _⟩, _⟩ :=
    checklist_roundtrip_and_replace ⟨[], [], [], []⟩ c5Req "t1" c4Now
      freshA freshA freshA freshA (by simp) (by decide)
  rw [ht]
  refine ⟨by simp [hl1]; rfl, by simp [hl2]; rfl, by simp [hm1]; rfl⟩

/-- C6: for a query without sort or pagination, over a store whose rows
all convert, `list` succeeds and returns exactly the rows satisfying the
conjunction of the supplied filters (one result per matching row,
membership characterised), the filter conjunction being: epic equality,
status equality, assignee equality and the free-text search, each only
when supplied; and the free-text search matches every task whose title or
description contains the search string as a substring. -/
theorem get_tasks_filters_conjunction (db : Db) (p : TaskQueryParams)
    (hsort : p.sort = none) (hlimit : p.limit = none)
    (hrows : ∀ r ∈ db.tasks, (rowToTask r).isSome = true) :
    (∃ ts, get_tasks db p = some ts ∧
      ts.length = (db.tasks.filter (rowMatches p)).length ∧
      (∀ t, t ∈ ts ↔ ∃ r ∈ db.tasks, rowMatches p r = true ∧
        (rowToTask r).map (enrichTask db) = some t)) ∧
    (∀ r, rowMatches p r = true ↔
      ((∀ e, p.epic = some e → r.epic = some e) ∧
       (∀ s, p.status = some s → r.status = s) ∧
       (∀ a, p.assignee = some a → r.assignee = some a) ∧
       (∀ s, p.search = some s → searchMatches s r = true))) ∧
    (∀ (needle : String) (r : TaskRow),
      ((∃ pre post, r.title.data = pre ++ needle.data ++ post) ∨
       (∃ pre post, r.description.data = pre ++ needle.data ++ post)) →
      searchMatches needle r = true) := by
  refine ⟨?_, rowMatches_iff p, searchMatches_of_substring⟩
  have hcol : sortColumnOf p.sort = "updated_at" := by rw [hsort]; rfl
  have hdir : sortDirectionOf p.sort = "desc" := by rw [hsort]; rfl
  rw [get_tasks, hcol, hdir, hlimit]
  rw [if_pos (by decide :
    "updated_at" ∈ textSortColumns ∧ ("desc" = "asc" ∨ "desc" = "desc"))]
  have hall : ∀ r ∈ sortByLe
      (fun a b => if "desc" = "asc"
        then !decide (taskOrderKey "updated_at" b < taskOrderKey "updated_at" a)
        else !decide (taskOrderKey "updated_at" a < taskOrderKey "updated_at" b))
      (db.tasks.filter (rowMatches p)), (rowToTask r).isSome = true := by
    intro r hr
    rw [mem_sortByLe] at hr
    exact hrows r (List.mem_filter.mp hr).1
  obtain ⟨ts, hts, hlen, hmem⟩ := enrichRows_char db _ hall
  refine ⟨ts, hts, ?_, ?_⟩
  · rw [hlen, length_sortByLe]
  · intro t
    rw [hmem]
    constructor
    · rintro ⟨r, hr, h2⟩
      rw [mem_sortByLe] at hr
      obtain ⟨h3, h4⟩ := List.mem_filter.mp hr
      exact ⟨r, h3, h4, h2⟩
    · rintro ⟨r, h3, h4, h2⟩
      refine ⟨r, ?_, h2⟩
      rw [mem_sortByLe]
      exact List.mem_filter.mpr ⟨h3, h4⟩

theorem get_tasks_filters_conjunction_witness :
    (get_tasks c6Db { epic := some "E1" }).map List.length = some 2 ∧
    (get_tasks c6Db { status := some "Done" }).map List.length = some 1 := by
  obtain ⟨ts1, hts1, hlen1, _⟩ :=
    (get_tasks_filters_conjunction c6Db { epic := some "E1" } rfl rfl
      (by decide)).1
  obtain ⟨ts2, hts2, hlen2, _⟩ :=
    (get_tasks_filters_conjunction c6Db { status := some "Done" } rfl rfl
      (by decide)).1
  constructor
  · rw [hts1, Option.map_some', hlen1]
    rfl
  · rw [hts2, Option.map_some', hlen2]
    rfl

/-- C7 (code_bug evidence): the spec requires malformed stored data to
surface as a `StorageError` and guarantees `list` / `getById` never
panic on rows present in storage.  In the code,
`Task::from(TaskRow)` calls `parse_from_rfc3339(..).unwrap()`; on a row
whose stored `created_at` is `"not-a-date"` the conversion panics
(modelled as `none`) and so do `get_task_by_id` and `get_tasks` — no
`StorageError` value is ever produced for the caller. -/
theorem malformed_timestamp_panics :
    rowToTask c7Row = none ∧
    get_task_by_id c7Db "t1" = none ∧
    get_tasks c7Db {} = none := by
  refine ⟨rfl, rfl, ?_⟩
  decide

/-- C8: the completion rate is zero on an empty task set (no division
error), and otherwise equals the number of rows stored with status
`'Done'` divided by the row count, times 100; on the statuses
`[Done, Todo, Done, InProgress]` it is exactly `50`. -/
theorem completion_rate_formula :
    (∀ db : Db, db.tasks = [] → get_completion_rate db = 0) ∧
    (∀ db : Db, db.tasks ≠ [] →
      get_completion_rate db =
        ((db.tasks.filter (fun r => decide (r.status = "Done"))).length : ℚ) /
          (db.tasks.length : ℚ) * 100) ∧
    get_completion_rate c8Db = 50 := by
  refine ⟨?_, ?_, ?_⟩
  · intro db h
    simp [get_completion_rate, h]
  · intro db h
    rw [get_completion_rate]
    rw [if_neg (by simpa using h)]
  · rw [get_completion_rate]
    norm_num [show (c8Db.tasks.filter (fun r => decide (r.status = "Done"))).length = 2
        from rfl,
      show c8Db.tasks.length = 4 from rfl]

/-- C9: the average story points is the mean over exactly the tasks whose
story points are set (`filterMap` drops the `NULL`s from numerator and
denominator alike), is `0` on an empty task set, and on the points
`[5, 3, 8, null]` equals `(5+3+8)/3 = 16/3`. -/
theorem average_story_points_formula :
    (∀ db : Db, db.tasks = [] → get_average_story_points db = 0) ∧
    (∀ db : Db, db.tasks.filterMap (fun r => r.story_points) ≠ [] →
      get_average_story_points db =
        (((db.tasks.filterMap (fun r => r.story_points)).sum : ℤ) : ℚ) /
          ((db.tasks.filterMap (fun r => r.story_points)).length : ℚ)) ∧
    get_average_story_points c9Db = 16 / 3 := by
  refine ⟨?_, ?_, ?_⟩
  · intro db h
    simp [get_average_story_points, h]
  · intro db h
    rw [get_average_story_points]
    rw [if_neg (by simpa [List.length_eq_zero] using h)]
  · rw [get_average_story_points]
    norm_num [show c9Db.tasks.filterMap (fun r => r.story_points) = [5, 3, 8]
        from rfl,
      show ([5, 3, 8] : List ℤ).sum = 16 from rfl]

/-- C10: the row-to-task conversion is total on the three enum string
columns, with the fall-through defaults of the source's `match` arms:
unknown `task_type` decodes to `Task`, unknown `priority` to `Medium`,
unknown `status` to `Done` — so the row `c10Row`, whose status string is
corrupted, reads back as a completed (`Done`) task. -/
theorem row_conversion_enum_defaults :
    (∀ s, s ≠ "Epic" → s ≠ "Story" → s ≠ "Bug" →
      taskTypeFromString s = TaskType.Task) ∧
    (∀ s, s ≠ "Critical" → s ≠ "High" → s ≠ "Low" →
      priorityFromString s = Priority.Medium) ∧
    (∀ s, s ≠ "Todo" → s ≠ "InProgress" → s ≠ "InReview" →
      taskStatusFromString s = TaskStatus.Done) ∧
    (rowToTask c10Row).map Task.status = some TaskStatus.Done ∧
    (rowToTask c10Row).map Task.rtype = some TaskType.Task ∧
    (rowToTask c10Row).map Task.priority = some Priority.Medium := by
  refine ⟨?_, ?_, ?_, by decide, by decide, by decide⟩
  · intro s h1 h2 h3
    simp [taskTypeFromString, h1, h2, h3]
  · intro s h1 h2 h3
    simp [priorityFromString, h1, h2, h3]
  · intro s h1 h2 h3
    simp [taskStatusFromString, h1, h2, h3]

theorem delete_task_succeeds_and_cascades_witness :
    (tasks_delete_handler c3Db "t1").2 = DeleteResponse.deleted ∧
    (delete_task c3Db "t1").checklist_items.filter
      (fun c => decide (c.task_id = "t1")) = [] := by
  exact ⟨(delete_task_succeeds_and_cascades c3Db "t1").1,
    (delete_task_succeeds_and_cascades c3Db "t1").2.2.1⟩

theorem completion_rate_formula_witness :
    get_completion_rate ⟨[], [], [], []⟩ = 0 ∧ get_completion_rate c8Db = 50 := by
  exact ⟨completion_rate_formula.1 ⟨[], [], [], []⟩ rfl,
    completion_rate_formula.2.2⟩

theorem average_story_points_formula_witness :
    get_average_story_points ⟨[], [], [], []⟩ = 0 ∧
    get_average_story_points c9Db = 16 / 3 := by
  exact ⟨average_story_points_formula.1 ⟨[], [], [], []⟩ rfl,
    average_story_points_formula.2.2⟩

theorem row_conversion_enum_defaults_witness :
    taskTypeFromString "garbage" = TaskType.Task ∧
    priorityFromString "garbage" = Priority.Medium ∧
    taskStatusFromString "garbage" = TaskStatus.Done := by
  exact ⟨row_conversion_enum_defaults.1 "garbage" (by decide) (by decide)
      (by decide),
    row_conversion_enum_defaults.2.1 "garbage" (by decide) (by decide)
      (by decide),
    row_conversion_enum_defaults.2.2.1 "garbage" (by decide) (by decide)
      (by decide)⟩

end Taskdown

